import Mathlib

/-!
Shallow embedding of the CastQuotes application (`src/App.tsx`).

The browser environment is modelled explicitly and deterministically:

* the `localStorage` entry for the quote list is a `QuotesCell` value (the
  key can be absent, hold the empty string, hold unparseable text, or hold
  a JSON document); the entry for the admin password is an `Option String`;
* runtime JSON values are the inductive `JsonVal`; numeric payloads carry
  an `Int` because the application never computes with them, it only
  passes them through;
* the single network request of `fetchQuotesFromGithub` is summarised by a
  `FetchOutcome` value: transport failure, non-ok HTTP status, body that
  fails to decode as JSON, or a decoded JSON body;
* the two `useEffect` hooks of `App` are unfolded, in the order the
  framework runs them on an uncancelled mount, into the deterministic
  function `mountAndSettle` (its docstring traces the event order);
* the cast dispatcher `tryOpenFarcasterComposer` records its externally
  observable actions in a `DispatchTrace`;
* storage writes are assumed to succeed except where a claim is about a
  failing write, in which case the write carries an explicit success flag
  (`persistAdminPw`), mirroring the try/catch-ignore in the source.

JavaScript `String.prototype.trim` is modelled by `jsTrim` below (strip
leading and trailing whitespace from the character sequence) and
`.length` by the number of characters, adequate for every string this
development touches.
-/

/-- JavaScript `String.prototype.trim`: the string without its leading
and trailing whitespace characters. -/
def jsTrim (s : String) : String :=
  ⟨((s.data.dropWhile Char.isWhitespace).reverse.dropWhile Char.isWhitespace).reverse⟩

/-- Runtime JSON values, as produced by `JSON.parse` / `res.json()`. -/
inductive JsonVal : Type where
  | null : JsonVal
  | bool (b : Bool) : JsonVal
  | num (n : Int) : JsonVal
  | str (s : String) : JsonVal
  | arr (elems : List JsonVal) : JsonVal

/-- The built-in default quote list (`DEFAULT_QUOTES`, App.tsx lines 12-37),
24 literal strings. -/
def DEFAULT_QUOTES : List String :=
  [ "Build in public, cast in style.",
    "One frame can change your feed.",
    "Stay decentralized, stay visible.",
    "Your words, onchain forever.",
    "BASE IS FOR EVERYONE",
    "JESSE IS BALD AND BASED",
    "ETH-erion for life",
    "Miniapp is the name, but bigger job than your PP",
    "BASED META",
    "Mint warplet or die",
    "CLANKER here, CLANKER there, CLANKER everywhere",
    "$NOICE? or NOICE",
    "SATOSHI is building now on BASE",
    "Yo mamma!",
    "CAST or you are GAY",
    "gm to the gmers and gm to the gners",
    "RUGGED onchain",
    "VITALIK GAY",
    "ETH to $10,690",
    "1 + 1 = BASED",
    "👁️🫦👁️",
    "NO FEE NOVEMBER",
    "NUT DAILY TRADE DAILY on FARCASTER",
    "📷🍑" ]

/-- `DEFAULT_QUOTES` as the runtime JSON array the application state holds
(`DEFAULT_QUOTES.slice()` yields an array of strings). -/
def defaultsJson : List JsonVal := DEFAULT_QUOTES.map JsonVal.str

/-- State of the `localStorage` quote-list entry (`STORAGE_KEY`):
absent (`getItem` returns null), the stored empty string (falsy in the
`if (!raw)` tests of App.tsx lines 61 and 113), text on which `JSON.parse`
throws, or text that parses to the JSON value `v`. -/
inductive QuotesCell : Type where
  | absent : QuotesCell
  | empty : QuotesCell
  | malformed : QuotesCell
  | json (v : JsonVal) : QuotesCell

/-- `loadQuotes` (App.tsx lines 58-68): read the stored quote list; on an
absent/empty/malformed entry, or a parse result that is not a non-empty
array, fall back to a copy of `DEFAULT_QUOTES`. -/
def loadQuotes (c : QuotesCell) : List JsonVal :=
  match c with
  | QuotesCell.json (JsonVal.arr l) => if l.isEmpty then defaultsJson else l
  | _ => defaultsJson

/-- `saveQuotes` (App.tsx lines 70-76) with the write succeeding: the
stored entry becomes the JSON serialisation of the list. -/
def saveQuotes (qs : List JsonVal) : QuotesCell :=
  QuotesCell.json (JsonVal.arr qs)

/-- Outcome of the single `fetch(RAW_GITHUB_URL, \x7b cache: "no-store" \x7d)`
request: the promise rejected, the response status was not ok, the body
failed to decode as JSON, or the body decoded to the JSON value `v`. -/
inductive FetchOutcome : Type where
  | transportError : FetchOutcome
  | httpError : FetchOutcome
  | badJson : FetchOutcome
  | body (v : JsonVal) : FetchOutcome

/-- `fetchQuotesFromGithub` (App.tsx lines 46-56): `null` on transport
error, non-ok status or undecodable body; a decoded body is returned as-is
when `Array.isArray(data) && data.length > 0`, else `null`. Note the
source checks only array-ness and non-emptiness, not element shapes. -/
def fetchQuotesFromGithub (o : FetchOutcome) : Option (List JsonVal) :=
  match o with
  | FetchOutcome.body (JsonVal.arr l) => if l.isEmpty then none else some l
  | _ => none

/-- Whether the stored entry holds what App.tsx lines 112-115 accept as a
user-edited list: text parsing to a non-empty JSON array. -/
def hasStoredList (c : QuotesCell) : Bool :=
  match c with
  | QuotesCell.json (JsonVal.arr l) => !l.isEmpty
  | _ => false

/-- Observable result of a settled, uncancelled mount: the final `quotes`
state, the final stored quote-list entry, and whether the network request
was issued. -/
structure MountResult : Type where
  quotes : List JsonVal
  store : QuotesCell
  fetched : Bool

/-- Continuation of the mount after step 1 of the resolver effect failed
to find a stored list (App.tsx lines 127-144). Before the awaited fetch
resolves, the persist effect (lines 156-158) has already run once with the
initial `quotes` state `quotes0` and written it to storage; that write is
then overwritten by the final persist-effect run: with the serialised
remote list `r` after `setQuotes(remote)` (the explicit `setItem` at line
133 writes the same value), or with the serialised default list after the
fallback `setQuotes(DEFAULT_QUOTES.slice())` at line 142 (on this path
`quotes0` is itself `defaultsJson`, so the overwrite repeats the same
content). -/
def mountFetchPath (_quotes0 : List JsonVal) (outcome : FetchOutcome) : MountResult :=
  match fetchQuotesFromGithub outcome with
  | some r => ⟨r, saveQuotes r, true⟩
  | none => ⟨defaultsJson, saveQuotes defaultsJson, true⟩

/-- The mount of `App` (App.tsx lines 96-158), run to quiescence without
cancellation, as a function of the initial stored quote entry and the
outcome the network would produce. The event order being modelled:
1. the initial render computes `quotes0 = loadQuotes()` (line 97);
2. the resolver effect (lines 106-153) runs first: if the stored entry
   parses to a non-empty array, it adopts that list synchronously and
   returns without fetching; otherwise it suspends awaiting
   `fetchQuotesFromGithub()`;
3. the persist effect (lines 156-158) runs after the resolver effect's
   synchronous prefix, writing the initial `quotes` state to storage;
4. each `setQuotes` passes a fresh array, so it triggers a re-render whose
   persist-effect run writes the new list to storage. -/
def mountAndSettle (store0 : QuotesCell) (outcome : FetchOutcome) : MountResult :=
  let quotes0 := loadQuotes store0
  match store0 with
  | QuotesCell.json (JsonVal.arr l) =>
      if l.isEmpty then mountFetchPath quotes0 outcome
      else ⟨l, saveQuotes l, false⟩
  | _ => mountFetchPath quotes0 outcome

/-- Presence of the host composer capability (`window.farcaster` or
`window.Farcaster` with a callable `openComposer`); `raises` records
whether that invocation throws synchronously (caught at line 169). -/
inductive HostComposer : Type where
  | absent : HostComposer
  | present (raises : Bool) : HostComposer

/-- The structured message posted to the parent frame (App.tsx line 175). -/
structure PostedMsg : Type where
  source : String
  type : String
  text : String

/-- The message `\x7b source: "castquotes-miniapp", type: "OPEN_COMPOSER",
text \x7d` of App.tsx line 175. -/
def openComposerMsg (text : String) : PostedMsg :=
  ⟨"castquotes-miniapp", "OPEN_COMPOSER", text⟩

/-- Externally observable actions of one `tryOpenFarcasterComposer` call:
the argument of the host-composer invocation if one happened, the messages
posted to the parent frame, the clipboard writes attempted, and the texts
shown in a blocking prompt. -/
structure DispatchTrace : Type where
  hostInvoked : Option String
  posts : List PostedMsg
  clipboardWrites : List String
  prompts : List String

/-- The fallback chain after the host-composer step did not return
(App.tsx lines 173-186): post the structured message to the parent and
stop; if `postMessage` throws, attempt a clipboard write (an alert follows
on success); if the clipboard write fails, show a blocking prompt with the
text. `invoked` carries whether the host composer had been invoked (and
threw) before this chain ran. -/
def castFallback (invoked : Option String) (postRaises : Bool) (clipboardOk : Bool)
    (text : String) : DispatchTrace :=
  if postRaises then
    if clipboardOk then ⟨invoked, [], [text], []⟩
    else ⟨invoked, [], [text], [text]⟩
  else ⟨invoked, [openComposerMsg text], [], []⟩

/-- `tryOpenFarcasterComposer` (App.tsx lines 161-187): if a host composer
capability is present, invoke it with the text and return; a synchronous
throw from that invocation is caught and falls through to the
`castFallback` chain, as does an absent capability. -/
def tryOpenFarcasterComposer (host : HostComposer) (postRaises : Bool)
    (clipboardOk : Bool) (text : String) : DispatchTrace :=
  match host with
  | HostComposer.present false => ⟨some text, [], [], []⟩
  | HostComposer.present true => castFallback (some text) postRaises clipboardOk text
  | HostComposer.absent => castFallback none postRaises clipboardOk text

/-- `getAdminPw` (App.tsx lines 78-81): `stored || "basedfin"` — the fixed
default is returned when the key is absent and also when the stored value
is the empty string (falsy). -/
def getAdminPw (cell : Option String) : String :=
  match cell with
  | some s => if s = "" then ("basedfin") else s
  | none => ("basedfin")

/-- `persistAdminPw` (App.tsx lines 83-89): write the password to storage;
a throwing write (`writeOk = false`) is swallowed and leaves the stored
value unchanged. -/
def persistAdminPw (writeOk : Bool) (pw : String) (cell : Option String) : Option String :=
  if writeOk then some pw else cell

/-- `tryUnlock` (App.tsx lines 201-209) as the authentication test it
performs: the panel unlocks iff the typed password equals `getAdminPw()`,
which reads storage directly. -/
def tryUnlock (pwInput : String) (cell : Option String) : Bool :=
  pwInput == getAdminPw cell

/-- `handleSetPw` (App.tsx lines 228-238): trim the input; reject (leaving
storage untouched, second component `false`) when the trimmed length is
below 4; otherwise persist the trimmed value and report success (`true`,
the "Password updated." alert) whether or not the write succeeded. -/
def handleSetPw (writeOk : Bool) (pwInput : String) (cell : Option String) :
    Option String × Bool :=
  let t := jsTrim pwInput
  if t.length < 4 then (cell, false)
  else (persistAdminPw writeOk t cell, true)

/-- `handleAddQuote` (App.tsx lines 211-218): trim the input; an empty
trimmed text is a no-op; otherwise prepend the trimmed text. -/
def handleAddQuote (newQuoteText : String) (quotes : List JsonVal) : List JsonVal :=
  let t := jsTrim newQuoteText
  if t = "" then quotes else JsonVal.str t :: quotes

/-- `handleDeleteQuote` (App.tsx lines 220-226): when the confirmation
dialog is accepted, remove the element at `idx` (`Array.prototype.splice`
with delete count 1); otherwise leave the list unchanged. -/
def handleDeleteQuote (confirmed : Bool) (idx : Nat) (quotes : List JsonVal) : List JsonVal :=
  if confirmed then quotes.take idx ++ quotes.drop (idx + 1) else quotes

/-- `handleResetToDefault` (App.tsx lines 240-246): when confirmed,
replace the list with a copy of `DEFAULT_QUOTES`; otherwise leave it. -/
def handleResetToDefault (confirmed : Bool) (quotes : List JsonVal) : List JsonVal :=
  if confirmed then defaultsJson else quotes

/-- Any list the remote fetch accepts is non-empty (the `data.length > 0`
guard of App.tsx line 51). -/
lemma fetch_some_ne_nil (o : FetchOutcome) (r : List JsonVal)
    (h : fetchQuotesFromGithub o = some r) : r ≠ [] := by
  cases o with
  | transportError => exact absurd h (by simp [fetchQuotesFromGithub])
  | httpError => exact absurd h (by simp [fetchQuotesFromGithub])
  | badJson => exact absurd h (by simp [fetchQuotesFromGithub])
  | body v =>
      cases v with
      | null => exact absurd h (by simp [fetchQuotesFromGithub])
      | bool b => exact absurd h (by simp [fetchQuotesFromGithub])
      | num n => exact absurd h (by simp [fetchQuotesFromGithub])
      | str s => exact absurd h (by simp [fetchQuotesFromGithub])
      | arr m =>
          cases m with
          | nil => exact absurd h (by simp [fetchQuotesFromGithub])
          | cons a t =>
              have hl : a :: t = r := by simpa [fetchQuotesFromGithub] using h
              subst hl
              simp

/-- The built-in default list is non-empty. -/
lemma defaultsJson_ne_nil : defaultsJson ≠ [] := by
  simp [defaultsJson, DEFAULT_QUOTES]

/-- C2: for every non-empty quote list L parseable from local storage, the
settled load-time resolution returns exactly L, leaves the stored entry
holding L, and issues no network request. -/
theorem resolve_prefers_stored_list (L : List JsonVal) (f : FetchOutcome)
    (h : L ≠ []) :
    mountAndSettle (QuotesCell.json (JsonVal.arr L)) f =
      ⟨L, QuotesCell.json (JsonVal.arr L), false⟩ := by
  cases L with
  | nil => exact absurd rfl h
  | cons a t => rfl

/-- Witness for C2 at a concrete stored list and a failing remote. -/
theorem resolve_prefers_stored_list_witness :
    mountAndSettle (QuotesCell.json (JsonVal.arr [JsonVal.str ("hi")]))
        FetchOutcome.transportError =
      ⟨[JsonVal.str ("hi")], QuotesCell.json (JsonVal.arr [JsonVal.str ("hi")]), false⟩ :=
  resolve_prefers_stored_list _ _ (by simp)

/-- C3: with no stored list, a remote fetch decoding to a non-empty array R
makes the settled resolution return R, the store end up holding R, and the
network request was issued. -/
theorem resolve_adopts_remote (c : QuotesCell) (R : List JsonVal)
    (h1 : hasStoredList c = false) (h2 : R ≠ []) :
    mountAndSettle c (FetchOutcome.body (JsonVal.arr R)) =
      ⟨R, QuotesCell.json (JsonVal.arr R), true⟩ := by
  obtain ⟨a, t, rfl⟩ : ∃ a t, R = a :: t := by
    cases R with
    | nil => exact absurd rfl h2
    | cons a t => exact ⟨a, t, rfl⟩
  cases c with
  | absent => rfl
  | empty => rfl
  | malformed => rfl
  | json v =>
      cases v with
      | null => rfl
      | bool b => rfl
      | num n => rfl
      | str s => rfl
      | arr l =>
          cases l with
          | nil => rfl
          | cons b u => simp [hasStoredList] at h1

/-- Witness for C3 at an absent store and a concrete remote array. -/
theorem resolve_adopts_remote_witness :
    mountAndSettle QuotesCell.absent
        (FetchOutcome.body (JsonVal.arr [JsonVal.str ("q")])) =
      ⟨[JsonVal.str ("q")], QuotesCell.json (JsonVal.arr [JsonVal.str ("q")]), true⟩ :=
  resolve_adopts_remote _ _ rfl (by simp)

/-- C1 evaluation: with the quote entry absent and the remote fetch failing
on transport, the settled mount displays the default list, but the store
does NOT remain absent — it ends up holding the serialised default list,
written by the persist-on-change effect of App.tsx lines 156-158 (which
runs after the initial render and again after the fallback update). -/
theorem mount_fallback_persists_defaults :
    (mountAndSettle QuotesCell.absent FetchOutcome.transportError).quotes = defaultsJson
  ∧ (mountAndSettle QuotesCell.absent FetchOutcome.transportError).store =
      QuotesCell.json (JsonVal.arr defaultsJson)
  ∧ (mountAndSettle QuotesCell.absent FetchOutcome.transportError).store ≠
      QuotesCell.absent := by
  refine ⟨rfl, rfl, ?_⟩
  intro h
  exact QuotesCell.noConfusion h

/-- C4 counterexample: a decoded body that is a non-empty array whose
elements are not non-empty strings (here a number, and an empty string) is
still accepted by `fetchQuotesFromGithub`, not treated as absent. -/
theorem fetch_accepts_nonstring_elements :
    fetchQuotesFromGithub (FetchOutcome.body (JsonVal.arr [JsonVal.num 1])) =
      some [JsonVal.num 1]
  ∧ fetchQuotesFromGithub (FetchOutcome.body (JsonVal.arr [JsonVal.str ("")])) =
      some [JsonVal.str ("")] :=
  ⟨rfl, rfl⟩

/-- C4 amended: the remote fetch yields a list exactly when the request had
no transport error, the status was ok, and the decoded body is a non-empty
JSON array; the array's elements are not inspected at all. -/
theorem fetch_acceptance_characterization (o : FetchOutcome) (l : List JsonVal) :
    fetchQuotesFromGithub o = some l ↔
      o = FetchOutcome.body (JsonVal.arr l) ∧ l ≠ [] := by
  constructor
  · intro h
    cases o with
    | transportError => exact absurd h (by simp [fetchQuotesFromGithub])
    | httpError => exact absurd h (by simp [fetchQuotesFromGithub])
    | badJson => exact absurd h (by simp [fetchQuotesFromGithub])
    | body v =>
        cases v with
        | null => exact absurd h (by simp [fetchQuotesFromGithub])
        | bool b => exact absurd h (by simp [fetchQuotesFromGithub])
        | num n => exact absurd h (by simp [fetchQuotesFromGithub])
        | str s => exact absurd h (by simp [fetchQuotesFromGithub])
        | arr m =>
            cases m with
            | nil => exact absurd h (by simp [fetchQuotesFromGithub])
            | cons a t =>
                have hl : a :: t = l := by simpa [fetchQuotesFromGithub] using h
                subst hl
                exact ⟨rfl, by simp⟩
  · rintro ⟨rfl, hne⟩
    cases l with
    | nil => exact absurd rfl hne
    | cons a t => rfl

/-- Witness for the amended C4 at a concrete accepted body. -/
theorem fetch_acceptance_characterization_witness :
    fetchQuotesFromGithub (FetchOutcome.body (JsonVal.arr [JsonVal.str ("x")])) =
      some [JsonVal.str ("x")] :=
  (fetch_acceptance_characterization _ _).mpr ⟨rfl, by simp⟩

/-- C10: reading the admin secret returns the fixed default both when no
secret was ever stored and when the stored secret is the empty string, and
authentication cannot tell the two storage states apart. -/
theorem empty_stored_secret_indistinguishable :
    getAdminPw none = ("basedfin")
  ∧ getAdminPw (some ("")) = ("basedfin")
  ∧ ∀ p : String, tryUnlock p (some ("")) = tryUnlock p none :=
  ⟨rfl, rfl, fun _ => rfl⟩

/-- C5 counterexample: deleting the only remaining quote (with the
confirmation accepted) leaves the displayed list empty; no default
substitution happens on mutation. -/
theorem delete_last_quote_empties_list :
    handleDeleteQuote true 0 [JsonVal.str ("a")] = [] := rfl

/-- The fetch path of the mount never produces an empty quote list. -/
lemma mountFetchPath_quotes_ne_nil (q : List JsonVal) (f : FetchOutcome) :
    (mountFetchPath q f).quotes ≠ [] := by
  cases h : fetchQuotesFromGithub f with
  | none =>
      have he : (mountFetchPath q f).quotes = defaultsJson := by
        simp [mountFetchPath, h]
      rw [he]
      exact defaultsJson_ne_nil
  | some r =>
      have he : (mountFetchPath q f).quotes = r := by
        simp [mountFetchPath, h]
      rw [he]
      exact fetch_some_ne_nil f r h

/-- When the fetch yields nothing, the fetch path of the mount displays the
default list. -/
lemma mountFetchPath_quotes_of_none (q : List JsonVal) (f : FetchOutcome)
    (h : fetchQuotesFromGithub f = none) :
    (mountFetchPath q f).quotes = defaultsJson := by
  simp [mountFetchPath, h]

/-- C5 amended: the displayed list is non-empty after load-time resolution,
after add, after reset, and after a delete on a list of at least two
elements; the 24-element default list is substituted whenever no source
yields a usable list. Deleting the last remaining quote, however, does
empty the list (see the counterexample). -/
theorem display_list_nonempty_amended :
    (∀ (c : QuotesCell) (f : FetchOutcome), (mountAndSettle c f).quotes ≠ [])
  ∧ (∀ (t : String) (qs : List JsonVal), qs ≠ [] → handleAddQuote t qs ≠ [])
  ∧ (∀ (b : Bool) (qs : List JsonVal), qs ≠ [] → handleResetToDefault b qs ≠ [])
  ∧ (∀ (b : Bool) (i : Nat) (qs : List JsonVal), 2 ≤ qs.length →
        handleDeleteQuote b i qs ≠ [])
  ∧ DEFAULT_QUOTES.length = 24
  ∧ (∀ (c : QuotesCell) (f : FetchOutcome), hasStoredList c = false →
        fetchQuotesFromGithub f = none → (mountAndSettle c f).quotes = defaultsJson) := by
  refine ⟨?_, ?_, ?_, ?_, rfl, ?_⟩
  · intro c f
    cases c with
    | absent => exact mountFetchPath_quotes_ne_nil (loadQuotes QuotesCell.absent) f
    | empty => exact mountFetchPath_quotes_ne_nil (loadQuotes QuotesCell.empty) f
    | malformed => exact mountFetchPath_quotes_ne_nil (loadQuotes QuotesCell.malformed) f
    | json v =>
        cases v with
        | null =>
            exact mountFetchPath_quotes_ne_nil (loadQuotes (QuotesCell.json JsonVal.null)) f
        | bool b =>
            exact mountFetchPath_quotes_ne_nil (loadQuotes (QuotesCell.json (JsonVal.bool b))) f
        | num n =>
            exact mountFetchPath_quotes_ne_nil (loadQuotes (QuotesCell.json (JsonVal.num n))) f
        | str s =>
            exact mountFetchPath_quotes_ne_nil (loadQuotes (QuotesCell.json (JsonVal.str s))) f
        | arr l =>
            cases l with
            | nil =>
                exact mountFetchPath_quotes_ne_nil
                  (loadQuotes (QuotesCell.json (JsonVal.arr []))) f
            | cons a t => exact List.cons_ne_nil a t
  · intro t qs h
    by_cases ht : jsTrim t = ("")
    · simpa [handleAddQuote, ht] using h
    · simp [handleAddQuote, ht]
  · intro b qs h
    cases b with
    | false => simpa [handleResetToDefault] using h
    | true => simpa [handleResetToDefault] using defaultsJson_ne_nil
  · intro b i qs h2
    cases b with
    | false =>
        have : qs ≠ [] := by
          intro he
          rw [he] at h2
          simp at h2
        simpa [handleDeleteQuote] using this
    | true =>
        have hlen : (qs.take i ++ qs.drop (i + 1)).length =
            min i qs.length + (qs.length - (i + 1)) := by
          simp
        have hpos : 0 < (qs.take i ++ qs.drop (i + 1)).length := by
          rw [hlen]
          omega
        have : qs.take i ++ qs.drop (i + 1) ≠ [] := by
          intro he
          rw [he] at hpos
          simp at hpos
        simpa [handleDeleteQuote] using this
  · intro c f h1 h2
    cases c with
    | absent => exact mountFetchPath_quotes_of_none (loadQuotes QuotesCell.absent) f h2
    | empty => exact mountFetchPath_quotes_of_none (loadQuotes QuotesCell.empty) f h2
    | malformed => exact mountFetchPath_quotes_of_none (loadQuotes QuotesCell.malformed) f h2
    | json v =>
        cases v with
        | null =>
            exact mountFetchPath_quotes_of_none (loadQuotes (QuotesCell.json JsonVal.null)) f h2
        | bool b =>
            exact mountFetchPath_quotes_of_none
              (loadQuotes (QuotesCell.json (JsonVal.bool b))) f h2
        | num n =>
            exact mountFetchPath_quotes_of_none
              (loadQuotes (QuotesCell.json (JsonVal.num n))) f h2
        | str s =>
            exact mountFetchPath_quotes_of_none
              (loadQuotes (QuotesCell.json (JsonVal.str s))) f h2
        | arr l =>
            cases l with
            | nil =>
                exact mountFetchPath_quotes_of_none
                  (loadQuotes (QuotesCell.json (JsonVal.arr []))) f h2
            | cons a t => simp [hasStoredList] at h1

/-- Witness for the amended C5 at concrete lists and a concrete failed
mount. -/
theorem display_list_nonempty_amended_witness :
    handleAddQuote ("x") [JsonVal.str ("a")] ≠ []
  ∧ handleResetToDefault true [JsonVal.str ("a")] ≠ []
  ∧ handleDeleteQuote true 0 [JsonVal.str ("a"), JsonVal.str ("b")] ≠ []
  ∧ (mountAndSettle QuotesCell.absent FetchOutcome.httpError).quotes = defaultsJson :=
  ⟨display_list_nonempty_amended.2.1 _ _ (by simp),
   display_list_nonempty_amended.2.2.1 _ _ (by simp),
   display_list_nonempty_amended.2.2.2.1 _ _ _ (by decide),
   display_list_nonempty_amended.2.2.2.2.2 _ _ rfl rfl⟩

/-- C6: dispatcher channel ordering. A present host composer whose
invocation returns is invoked with the text and nothing else happens; with
the capability absent and a non-throwing `postMessage`, exactly one
structured message is posted and no clipboard action occurs; no clipboard
write happens unless posting throws, and no blocking prompt happens unless
posting throws and the clipboard write also fails. -/
theorem dispatch_channel_ordering :
    (∀ (pr co : Bool) (text : String),
        tryOpenFarcasterComposer (HostComposer.present false) pr co text =
          ⟨some text, [], [], []⟩)
  ∧ (∀ (co : Bool) (text : String),
        tryOpenFarcasterComposer HostComposer.absent false co text =
          ⟨none, [openComposerMsg text], [], []⟩)
  ∧ (∀ (h : HostComposer) (co : Bool) (text : String),
        (tryOpenFarcasterComposer h false co text).clipboardWrites = [])
  ∧ (∀ (h : HostComposer) (co : Bool) (text : String),
        (tryOpenFarcasterComposer h false co text).prompts = [])
  ∧ (∀ (h : HostComposer) (pr : Bool) (text : String),
        (tryOpenFarcasterComposer h pr true text).prompts = []) := by
  refine ⟨fun pr co text => rfl, fun co text => rfl, ?_, ?_, ?_⟩
  · intro h co text
    cases h with
    | absent => rfl
    | present r => cases r <;> rfl
  · intro h co text
    cases h with
    | absent => rfl
    | present r => cases r <;> rfl
  · intro h pr text
    cases h with
    | absent => cases pr <;> rfl
    | present r => cases r <;> cases pr <;> rfl

/-- C7: adding a quote whose trimmed text is non-empty prepends it, so
deleting at the resulting index 0 restores the original list exactly; a
confirmed reset always yields the 24-element built-in default list,
whatever the prior list was. -/
theorem add_delete_reset_roundtrip :
    (∀ (qs : List JsonVal) (Q : String), jsTrim Q ≠ ("") →
        handleDeleteQuote true 0 (handleAddQuote Q qs) = qs)
  ∧ (∀ qs : List JsonVal, handleResetToDefault true qs = defaultsJson)
  ∧ defaultsJson.length = 24 := by
  refine ⟨?_, fun qs => rfl, rfl⟩
  intro qs Q h
  simp [handleAddQuote, h, handleDeleteQuote]

/-- Witness for C7 at a concrete quote and list. -/
theorem add_delete_reset_roundtrip_witness :
    handleDeleteQuote true 0 (handleAddQuote (" hello ") [JsonVal.str ("a")]) =
      [JsonVal.str ("a")]
  ∧ handleResetToDefault true [] = defaultsJson :=
  ⟨add_delete_reset_roundtrip.1 _ _ (by decide), add_delete_reset_roundtrip.2.1 _⟩

/-- C8: a secret update whose trimmed input is shorter than 4 characters is
rejected and leaves storage unchanged, so the old secret still unlocks;
with a trimmed length of at least 4 (and the storage write succeeding) the
update is accepted, after which the old secret no longer unlocks and the
new trimmed secret does. -/
theorem secret_update_policy (cell : Option String) (p : String) :
    ((jsTrim p).length < 4 →
        handleSetPw true p cell = (cell, false)
      ∧ tryUnlock (getAdminPw cell) cell = true)
  ∧ (4 ≤ (jsTrim p).length → getAdminPw cell ≠ jsTrim p →
        (handleSetPw true p cell).2 = true
      ∧ tryUnlock (getAdminPw cell) ((handleSetPw true p cell).1) = false
      ∧ tryUnlock (jsTrim p) ((handleSetPw true p cell).1) = true) := by
  constructor
  · intro h
    constructor
    · simp [handleSetPw, h]
    · simp [tryUnlock]
  · intro h4 hne
    have hnlt : ¬ (jsTrim p).length < 4 := by omega
    have h1 : (handleSetPw true p cell).1 = some (jsTrim p) := by
      simp [handleSetPw, hnlt, persistAdminPw]
    have hts : jsTrim p ≠ ("") := by
      intro he
      rw [he] at h4
      simp at h4
    refine ⟨by simp [handleSetPw, hnlt], ?_, ?_⟩
    · rw [h1]
      simp only [tryUnlock, getAdminPw, if_neg hts]
      exact beq_eq_false_iff_ne.mpr hne
    · rw [h1]
      simp only [tryUnlock, getAdminPw, if_neg hts]
      exact beq_self_eq_true _

/-- Witness for C8: the rejected short update and the accepted update at
concrete secrets. -/
theorem secret_update_policy_witness :
    (handleSetPw true ("ab") (some ("oldpw")) = (some ("oldpw"), false)
      ∧ tryUnlock (getAdminPw (some ("oldpw"))) (some ("oldpw")) = true)
  ∧ ((handleSetPw true ("abcd") (some ("oldpw"))).2 = true
      ∧ tryUnlock (getAdminPw (some ("oldpw")))
          ((handleSetPw true ("abcd") (some ("oldpw"))).1) = false
      ∧ tryUnlock (jsTrim ("abcd"))
          ((handleSetPw true ("abcd") (some ("oldpw"))).1) = true) :=
  ⟨(secret_update_policy _ _).1 (by decide),
   (secret_update_policy _ _).2 (by decide) (by decide)⟩

/-- C9 counterexample: when the storage write of the new secret throws, the
update is still reported as successful, yet a subsequent unlock attempt
compares against the OLD stored secret — the new secret does not
authenticate and the old one still does, because `tryUnlock` reads storage
directly and the in-memory copy of the secret is never consulted. -/
theorem failed_secret_write_old_secret_authenticates :
    (handleSetPw false ("newsecret") (some ("oldsecret"))).2 = true
  ∧ tryUnlock ("newsecret")
      ((handleSetPw false ("newsecret") (some ("oldsecret"))).1) = false
  ∧ tryUnlock ("oldsecret")
      ((handleSetPw false ("newsecret") (some ("oldsecret"))).1) = true := by
  refine ⟨by decide, by decide, by decide⟩

/-- C9 amended: a failing storage write of the admin secret is silently
swallowed (the update is reported successful) and leaves the stored secret
unchanged, so every later unlock attempt in the session behaves exactly as
if the update had never happened — storage, not the in-memory value, is
authoritative for authentication. -/
theorem failed_secret_write_storage_authoritative (cell : Option String) (p : String)
    (h : 4 ≤ (jsTrim p).length) :
    (handleSetPw false p cell).2 = true
  ∧ (handleSetPw false p cell).1 = cell
  ∧ ∀ q : String, tryUnlock q ((handleSetPw false p cell).1) = tryUnlock q cell := by
  have hnlt : ¬ (jsTrim p).length < 4 := by omega
  have h1 : (handleSetPw false p cell).1 = cell := by
    simp [handleSetPw, hnlt, persistAdminPw]
  exact ⟨by simp [handleSetPw, hnlt], h1, fun q => by rw [h1]⟩

/-- Witness for the amended C9 at a concrete failing write. -/
theorem failed_secret_write_storage_authoritative_witness :
    (handleSetPw false ("abcd") (some ("old pass"))).2 = true
  ∧ (handleSetPw false ("abcd") (some ("old pass"))).1 = some ("old pass")
  ∧ tryUnlock ("zzzz") ((handleSetPw false ("abcd") (some ("old pass"))).1) =
      tryUnlock ("zzzz") (some ("old pass")) :=
  ⟨(failed_secret_write_storage_authoritative _ _ (by decide)).1,
   (failed_secret_write_storage_authoritative _ _ (by decide)).2.1,
   (failed_secret_write_storage_authoritative _ _ (by decide)).2.2 _⟩
